import Mathlib

/-!
A shallow embedding, in Lean 4, of the parts of the `python_api` repository
that the verified claims are about:

* `marklogic/models/certificate/template.py` — the `Template` class: its
  configuration dictionary, the accessors, `marshal`/`unmarshal`, and the
  CRUD / operation methods (`create`, `update`, `delete`,
  `generate_template_certificate_authority`, `generate_temporary_certificate`,
  `get_certificate`).
* `mma.py` — the argv normalization and dispatch preparation in `MMA.run`.

Modelling conventions:
* Python dictionaries are association lists `List (String × _)`; insertion
  into an existing key keeps its position (as CPython dicts do), deletion
  removes the entry.
* Python exceptions are the `PyErr` type; a method that can raise returns
  `Except PyErr _`.  A `NameError` raised by a reference to an undefined
  identifier (the `optoins` and `ip-addr` typos in the source) is embedded
  as `PyErr.nameError` at exactly the program point where the reference
  is executed.
* HTTP traffic is explicit: each operation takes the `HttpResponse`(s) the
  environment would answer with and returns an `OpResult`, which records
  the requests the operation issued (in order), the Python return value or
  the exception raised, and the object's `_config` after the call.
  `json.loads(response.text)` is modelled by the `jsonBody` field that the
  environment supplies along with the raw `text` of a response.
* Python `is` on strings compares object identity, not string contents;
  `set_key_type` therefore receives, besides the string value, the fact of
  whether the argument is the very interned "rsa" literal object
  (identity implies string equality, never conversely).
-/

/-- A Python value as it appears inside a `Template` configuration: JSON-like
scalars and dictionaries, plus `request c`, a `Request` object whose
`_config` attribute is `c`. -/
inductive CVal where
  | str (s : String)
  | num (n : Int)
  | boolean (b : Bool)
  | dict (entries : List (String × CVal))
  | request (config : CVal)

/-- A `Template._config` dictionary. -/
abbrev Config := List (String × CVal)

/-- Python `d[k]` lookup / `k in d` membership on a dictionary, as an
association list scan. -/
def lookupKey {β : Type} (k : String) : List (String × β) → Option β
  | [] => none
  | (k', v) :: rest => if k' == k then some v else lookupKey k rest

/-- Python `del d[k]` (the removal itself; the `KeyError` branch is handled
at each call site, as the source's control flow does). -/
def eraseKey {β : Type} (k : String) : List (String × β) → List (String × β)
  | [] => []
  | (k', v) :: rest => if k' == k then rest else (k', v) :: eraseKey k rest

/-- Python `d[k] = v`: overwrite in place when the key exists, append
otherwise (CPython dict insertion order). -/
def setKey {β : Type} (k : String) (v : β) : List (String × β) → List (String × β)
  | [] => [(k, v)]
  | (k', v') :: rest => if k' == k then (k, v) :: rest else (k', v') :: setKey k v rest

/-- The Python exceptions the embedded code can raise.
`unexpectedResponse` is `UnexpectedManagementAPIResponse(response.text)`;
`validateCustom` is the exception raised by
`marklogic.utilities.validators.validate_custom`. -/
inductive PyErr where
  | unexpectedResponse (text : String)
  | keyError (key : String)
  | nameError (name : String)
  | validateCustom (message : String)
  | attributeError (message : String)
deriving DecidableEq, Repr

/-- The transport target handed to every operation (`connection.host`,
`connection.management_port`); credentials play no role in the claims. -/
structure Connection where
  host : String
  management_port : String
deriving DecidableEq, Repr

/-- One HTTP request issued by an operation. -/
structure HttpRequest where
  method : String
  uri : String
  body : Option Config

/-- One HTTP response supplied by the environment.  `jsonBody` is the
JSON-parsed content of `text` (the embedding of `json.loads(response.text)`). -/
structure HttpResponse where
  status_code : Nat
  text : String
  headers : List (String × String)
  jsonBody : Config

/-- The outcome of one method call on a `Template`: the HTTP requests it
issued in order, the returned value or raised exception, and the object's
`_config` after the call (unchanged whenever the source raised before
mutating it). -/
structure OpResult (α : Type) where
  reqs : List HttpRequest
  result : Except PyErr α
  config : Config

/-- `Template.template_id`: the `template-id` entry, or `None`. -/
def template_id (config : Config) : Option CVal :=
  lookupKey "template-id" config

/-- `Template.template_version`: the `template-version` entry, or `None`. -/
def template_version (config : Config) : Option CVal :=
  lookupKey "template-version" config

/-- `Template.key_type`: the `key-type` entry, or `None`. -/
def key_type (config : Config) : Option CVal :=
  lookupKey "key-type" config

/-- `Template.pass_phrase`: the `pass-phrase` entry of the `options`
sub-dictionary, or `None`. -/
def pass_phrase (config : Config) : Option CVal :=
  match lookupKey "options" config with
  | some (CVal.dict options) => lookupKey "pass-phrase" options
  | _ => none

/-- How `str.format` renders a template id into a URI: Python's `str()` of
the value (template ids are scalars in practice; `str()` of a composite
value is not modelled further). -/
def format_value : CVal → String
  | CVal.str s => s
  | CVal.num n => toString n
  | CVal.boolean b => if b then "True" else "False"
  | CVal.dict _ => "<dict>"
  | CVal.request _ => "<Request>"

/-- `"{2}".format(..., self.template_id())` — `template_id()` may be `None`,
which Python renders as the string `None`. -/
def format_template_id (config : Config) : String :=
  match template_id config with
  | none => "None"
  | some v => format_value v

/-- Modelled from the spec: `marklogic.utilities.validators.assert_type`
(the `marklogic/utilities/validators.py` file is not under `src/`).  The
spec's invariant is that the embedded request "must be an instance of the
Request type": `assert_type(value, Request)` returns the value when it is a
`Request` object and raises the custom validation error otherwise. -/
def assert_type_request (v : CVal) : Except PyErr CVal :=
  match v with
  | CVal.request c => Except.ok (CVal.request c)
  | _ => Except.error (PyErr.validateCustom "not an instance of Request")

/-- `Template.marshal` (template.py lines 254-266): copy every configuration
entry, except that the `req` entry is flattened to the `Request` object's
`_config` attribute; accessing `_config` on a non-`Request` value would
raise `AttributeError`. -/
def marshal : Config → Except PyErr Config
  | [] => Except.ok []
  | (k, v) :: rest =>
    if k == "req" then
      match v with
      | CVal.request c =>
        match marshal rest with
        | Except.ok tail => Except.ok ((k, c) :: tail)
        | Except.error e => Except.error e
      | _ => Except.error (PyErr.attributeError "no attribute _config")
    else
      match marshal rest with
      | Except.ok tail => Except.ok ((k, v) :: tail)
      | Except.error e => Except.error e

/-- Modelled from the spec: `Request.unmarshal`
(`marklogic/models/certificate/request.py` is not under `src/`).  The spec
describes `Request` as a wrapper of a certificate signing request's
distinguished-name fields with `marshal`/`unmarshal` converting between the
in-memory representation and the API's JSON shape; `unmarshal` constructs a
`Request` whose `_config` is the given configuration. -/
def Request_unmarshal (c : CVal) : CVal :=
  CVal.request c

/-- The per-entry effect of `Template.unmarshal`'s
`result._config['req'] = Request.unmarshal(result._config['req'])`:
the `req` entry is re-wrapped in place, every other entry is untouched. -/
def unmarshal_entry (kv : String × CVal) : String × CVal :=
  if kv.fst == "req" then (kv.fst, Request_unmarshal kv.snd) else kv

/-- `Template.unmarshal` (template.py lines 268-285): take the configuration
as given, then re-wrap the `req` entry (when present) through
`Request.unmarshal`.  The result is the constructed object's `_config`. -/
def unmarshal (config : Config) : Config :=
  if (lookupKey "req" config).isSome then
    config.map unmarshal_entry
  else
    config

/-- `Template.__init__` (template.py lines 41-63), returning the `_config`
of the new object or the exception the constructor raises.  The body first
builds the base dictionary (running `assert_type` on the request), then adds
`key-type` when not `None`, then — when a key length or a passphrase was
supplied — builds the `options` dictionary; storing a passphrase executes
`optoins['pass-phrase'] = pass_phrase` (line 60), a reference to the
undefined name `optoins`, hence a `NameError`. -/
def Template_init (name description : String) (cert_request : CVal)
    (kt : Option String) (key_length : Option CVal) (pp : Option CVal) :
    Except PyErr Config :=
  match assert_type_request cert_request with
  | Except.error e => Except.error e
  | Except.ok req =>
    let base : Config :=
      [("template-name", CVal.str name),
       ("template-description", CVal.str description),
       ("req", req)]
    let withKt : Config :=
      match kt with
      | some s => setKey "key-type" (CVal.str s) base
      | none => base
    if key_length.isSome || pp.isSome then
      let options : List (String × CVal) :=
        match key_length with
        | some kl => [("key-length", kl)]
        | none => []
      match pp with
      | some _ => Except.error (PyErr.nameError "optoins")
      | none => Except.ok (setKey "options" (CVal.dict options) withKt)
    else
      Except.ok withKt

/-- `Template.set_key_type` (template.py lines 137-146).  The source guards
with `value is not 'rsa'`: an object-identity comparison against the
interned literal, not a string comparison.  `value_is_rsa_literal` records
whether the argument is that very object; identity implies string equality
(`value_is_rsa_literal = true → value = "rsa"`), but a string equal to
`"rsa"` built at run time is a different object. -/
def set_key_type (config : Config) (value : String) (value_is_rsa_literal : Bool) :
    Except PyErr Config :=
  if value_is_rsa_literal = false then
    Except.error (PyErr.validateCustom "The key-type must be 'rsa'")
  else
    Except.ok (setKey "key-type" (CVal.str value) config)

/-- The base URI `http://host:port/manage/v2/certificate-templates`. -/
def templates_uri (conn : Connection) : String :=
  "http://" ++ conn.host ++ ":" ++ conn.management_port ++ "/manage/v2/certificate-templates"

/-- `Template.create` (template.py lines 287-317).  The operation marshals
the configuration and POSTs it; a status outside 200/201/204 raises
`UnexpectedManagementAPIResponse(response.text)`.  Otherwise it GETs
`http://host:port` + the response's `location` header + `/properties`
(a missing header would be a `KeyError`); on 200 the object's `_config` is
replaced by the unmarshaled response body, on anything else the generic
error is raised with the GET response's text. -/
def create (config : Config) (conn : Connection)
    (postResp getResp : HttpResponse) : OpResult Unit :=
  match marshal config with
  | Except.error e => OpResult.mk [] (Except.error e) config
  | Except.ok struct =>
    let postReq : HttpRequest := HttpRequest.mk "POST" (templates_uri conn) (some struct)
    if ([200, 201, 204].contains postResp.status_code) = false then
      OpResult.mk [postReq] (Except.error (PyErr.unexpectedResponse postResp.text)) config
    else
      match lookupKey "location" postResp.headers with
      | none => OpResult.mk [postReq] (Except.error (PyErr.keyError "location")) config
      | some loc =>
        let getUri : String :=
          "http://" ++ conn.host ++ ":" ++ conn.management_port ++ loc ++ "/properties"
        let getReq : HttpRequest := HttpRequest.mk "GET" getUri none
        if getResp.status_code == 200 then
          OpResult.mk [postReq, getReq] (Except.ok ()) (unmarshal getResp.jsonBody)
        else
          OpResult.mk [postReq, getReq]
            (Except.error (PyErr.unexpectedResponse getResp.text)) config

/-- `Template.update` (template.py lines 339-357).  The payload is
`self.marshal()` with `template-version` then `template-id` deleted (a
`KeyError` when the key is absent, raised before the PUT is issued); the
PUT goes to `.../certificate-templates/{id}/properties`; a status outside
200/204 raises the generic error.  The object's `_config` is never
touched. -/
def update (config : Config) (conn : Connection) (resp : HttpResponse) :
    OpResult Unit :=
  let uri : String :=
    templates_uri conn ++ "/" ++ format_template_id config ++ "/properties"
  match marshal config with
  | Except.error e => OpResult.mk [] (Except.error e) config
  | Except.ok payload =>
    if (lookupKey "template-version" payload).isSome = false then
      OpResult.mk [] (Except.error (PyErr.keyError "template-version")) config
    else
      let payload1 := eraseKey "template-version" payload
      if (lookupKey "template-id" payload1).isSome = false then
        OpResult.mk [] (Except.error (PyErr.keyError "template-id")) config
      else
        let payload2 := eraseKey "template-id" payload1
        let putReq : HttpRequest := HttpRequest.mk "PUT" uri (some payload2)
        if ([200, 204].contains resp.status_code) = false then
          OpResult.mk [putReq] (Except.error (PyErr.unexpectedResponse resp.text)) config
        else
          OpResult.mk [putReq] (Except.ok ()) config

/-- `Template.delete` (template.py lines 359-378).  A DELETE to
`.../certificate-templates/{id}`; a status outside 200/204 that is not 404
raises the generic error; otherwise `del self._config['template-id']`
(a `KeyError` when the key is absent). -/
def delete (config : Config) (conn : Connection) (resp : HttpResponse) :
    OpResult Unit :=
  let uri : String := templates_uri conn ++ "/" ++ format_template_id config
  let delReq : HttpRequest := HttpRequest.mk "DELETE" uri none
  if ([200, 204].contains resp.status_code || resp.status_code == 404) = false then
    OpResult.mk [delReq] (Except.error (PyErr.unexpectedResponse resp.text)) config
  else
    if (lookupKey "template-id" config).isSome = false then
      OpResult.mk [delReq] (Except.error (PyErr.keyError "template-id")) config
    else
      OpResult.mk [delReq] (Except.ok ()) (eraseKey "template-id" config)

/-- `Template.generate_template_certificate_authority` (template.py lines
382-405).  POSTs the operation payload to `.../certificate-templates/{id}`;
`if response.status_code != 201: raise` — only 201 returns the object.
(`assert_type(valid_for, int)` holds by typing here.) -/
def generate_template_certificate_authority (config : Config) (conn : Connection)
    (valid_for : Int) (resp : HttpResponse) : OpResult Unit :=
  let payload : Config :=
    [("operation", CVal.str "generate-template-certificate-authority"),
     ("valid-for", CVal.num valid_for)]
  let uri : String := templates_uri conn ++ "/" ++ format_template_id config
  let postReq : HttpRequest := HttpRequest.mk "POST" uri (some payload)
  if resp.status_code == 201 then
    OpResult.mk [postReq] (Except.ok ()) config
  else
    OpResult.mk [postReq] (Except.error (PyErr.unexpectedResponse resp.text)) config

/-- `Template.generate_temporary_certificate` (template.py lines 407-444).
POSTs the operation payload to `.../certificate-templates/{id}`;
`if response.status_code != 201: raise` — only 201 returns the object. -/
def generate_temporary_certificate (config : Config) (conn : Connection)
    (valid_for : Int) (common_name dns_name ip_addr : String)
    (if_necessary : Bool) (resp : HttpResponse) : OpResult Unit :=
  let payload : Config :=
    [("operation", CVal.str "generate-temporary-certificate"),
     ("valid-for", CVal.num valid_for),
     ("common-name", CVal.str common_name),
     ("dns-name", CVal.str dns_name),
     ("ip-addr", CVal.str ip_addr),
     ("if-necessary", CVal.str (if if_necessary then "true" else "false"))]
  let uri : String := templates_uri conn ++ "/" ++ format_template_id config
  let postReq : HttpRequest := HttpRequest.mk "POST" uri (some payload)
  if resp.status_code == 201 then
    OpResult.mk [postReq] (Except.ok ()) config
  else
    OpResult.mk [postReq] (Except.error (PyErr.unexpectedResponse resp.text)) config

/-- `Template.get_certificate` (template.py lines 446-480).  After building
the base payload and the `dns-name` branch, line 465 reads
`if ip-addr is not None:` — the expression `ip - addr` refers to the
undefined names `ip` and `addr`, so every call raises `NameError` here,
before the POST is ever issued; the 200/404/raise branching below it is
unreachable. -/
def get_certificate (config : Config) (conn : Connection)
    (common_name : String) (dns_name ip_addr : Option String) :
    OpResult (Option Config) :=
  let payload0 : Config :=
    [("operation", CVal.str "get-certificate"),
     ("common-name", CVal.str common_name)]
  let _payload1 : Config :=
    match dns_name with
    | some d => setKey "dns-name" (CVal.str d) payload0
    | none => payload0
  OpResult.mk [] (Except.error (PyErr.nameError "ip")) config

/-- Python's `tok.startswith(p)`, computed on the character lists so that
closed instances reduce inside the kernel. -/
def py_startswith (s p : String) : Bool :=
  p.data.isPrefixOf s.data

/-- Python's `c in tok` on a one-character string, computed on the
character list. -/
def py_contains (s : String) (c : Char) : Bool :=
  s.data.contains c

/-- The three token lists that the normalization loop of `MMA.run`
(mma.py lines 40-55) accumulates. -/
structure Normalized where
  options : List String
  params : List String
  positional : List String
deriving DecidableEq, Repr

/-- The normalization loop of `MMA.run` (mma.py lines 44-55), as a recursion
whose first argument is the `optarg` flag: a token following a non-`--debug`
option token is appended to `options` unconditionally; otherwise a token
starting with `-` goes to `options` (setting `optarg` unless it is
`--debug`), a token containing `=` goes to `params`, and everything else is
positional. -/
def classify : Bool → List String → Normalized
  | _, [] => Normalized.mk [] [] []
  | true, tok :: rest =>
    let r := classify false rest
    Normalized.mk (tok :: r.options) r.params r.positional
  | false, tok :: rest =>
    if py_startswith tok "-" then
      let r := classify (tok != "--debug") rest
      Normalized.mk (tok :: r.options) r.params r.positional
    else if py_contains tok '=' then
      let r := classify false rest
      Normalized.mk r.options (tok :: r.params) r.positional
    else
      let r := classify false rest
      Normalized.mk r.options r.params (tok :: r.positional)

/-- `MMA.run`'s normalization of an argv list (`optarg` starts out `False`). -/
def mma_normalize (argv : List String) : Normalized :=
  classify false argv

/-- The commands that may appear without an artifact (mma.py lines 63-64). -/
def empty_artifact_commands : List String :=
  ["start", "status", "stop", "init", "save", "switch", "clear", "log"]

/-- What `MMA.run` does between normalization and `parser.parse_args(argv)`
(mma.py lines 57-95): extract command and artifact from the positionals
(usage-exit when missing), apply the server-artifact hack (lines 74-85;
`positional[2]` raises `IndexError` when there are only two positionals)
and the stop hack (lines 87-90), and hand the parser
`options ++ positional ++ params` (lines 92-95). -/
def dispatch_argv (n : Normalized) : Except String (List String) :=
  match n.positional with
  | [] => Except.error "usage-exit"
  | command :: rest =>
    match rest with
    | [] =>
      if empty_artifact_commands.contains command then
        if command == "stop" then
          Except.ok (n.options ++ (command :: rest ++ ["host"]) ++ n.params)
        else
          Except.ok (n.options ++ (command :: rest) ++ n.params)
      else
        Except.error "usage-exit"
    | artifact :: _ =>
      if ["http", "xdbc", "odbc", "webdav"].contains artifact then
        let stype := artifact
        let artifact2 := if command == "list" then "servers" else "server"
        let pos2 := (command :: rest).set 1 artifact2
        match pos2.get? 2 with
        | none => Except.error "IndexError"
        | some t =>
          let pos3 := if t == artifact2 then pos2.eraseIdx 2 else pos2
          Except.ok ((n.options ++ ["--type", stype]) ++ pos3 ++ n.params)
      else
        Except.ok (n.options ++ (command :: rest) ++ n.params)

/-- The argv list `MMA.run` hands to `parser.parse_args`, as a function of
the raw argv: normalization followed by the pre-dispatch fixups. -/
def run_parser_argv (argv : List String) : Except String (List String) :=
  dispatch_argv (mma_normalize argv)

/-- One syntactic unit of a command line, for stating how `classify`
partitions tokens: an option with the token it consumes as its argument,
the argument-less `--debug` option, a `key=value` parameter, or a
positional token. -/
inductive ArgUnit where
  | opt (flag arg : String)
  | debugOpt
  | param (tok : String)
  | positional (tok : String)
deriving DecidableEq, Repr

/-- The raw tokens a unit contributes to argv. -/
def unitTokens : ArgUnit → List String
  | ArgUnit.opt f a => [f, a]
  | ArgUnit.debugOpt => ["--debug"]
  | ArgUnit.param t => [t]
  | ArgUnit.positional t => [t]

/-- The tokens a unit contributes to the `options` list. -/
def unitOptions : ArgUnit → List String
  | ArgUnit.opt f a => [f, a]
  | ArgUnit.debugOpt => ["--debug"]
  | _ => []

/-- The tokens a unit contributes to the `params` list. -/
def unitParams : ArgUnit → List String
  | ArgUnit.param t => [t]
  | _ => []

/-- The tokens a unit contributes to the `positional` list. -/
def unitPositional : ArgUnit → List String
  | ArgUnit.positional t => [t]
  | _ => []

/-- Well-formedness of a unit: an `opt` flag starts with `-` and is not
`--debug` (its argument token is arbitrary — the loop consumes the next
token unconditionally); a `param` token contains `=` and does not start
with `-`; a positional token has neither. -/
def unitWF : ArgUnit → Prop
  | ArgUnit.opt f _ => py_startswith f "-" = true ∧ f ≠ "--debug"
  | ArgUnit.debugOpt => True
  | ArgUnit.param t => py_startswith t "-" = false ∧ py_contains t '=' = true
  | ArgUnit.positional t => py_startswith t "-" = false ∧ py_contains t '=' = false

instance : DecidablePred unitWF := by
  intro u
  cases u <;> simp [unitWF] <;> infer_instance

/-- Flatten a unit list into an argv token list. -/
def unitsTokens (us : List ArgUnit) : List String :=
  (us.map unitTokens).flatten

/-! ## Concrete fixtures used by witnesses and counterexamples -/

/-- A sample `Request` object (`_config` is its distinguished-name dictionary). -/
def sampleReq : CVal :=
  CVal.request (CVal.dict [("organizationName", CVal.str "Acme")])

/-- A sample connection. -/
def sampleConn : Connection :=
  Connection.mk "localhost" "8002"

/-- A sample saved template configuration (server-assigned fields present). -/
def sampleConfig : Config :=
  [("template-name", CVal.str "t1"),
   ("template-description", CVal.str "d1"),
   ("req", sampleReq),
   ("key-type", CVal.str "rsa"),
   ("template-id", CVal.num 123),
   ("template-version", CVal.num 4)]

/-- A sample locally-constructed template configuration (no server-assigned
fields). -/
def sampleLocalConfig : Config :=
  [("template-name", CVal.str "t1"),
   ("template-description", CVal.str "d1"),
   ("req", sampleReq),
   ("key-type", CVal.str "rsa")]

/-- The properties body the server answers the create-fetch with. -/
def fetchedBody : Config :=
  [("template-id", CVal.num 123), ("template-version", CVal.num 1),
   ("template-name", CVal.str "t1"),
   ("req", CVal.dict [("organizationName", CVal.str "Acme")])]

/-- The marshalled form of `sampleLocalConfig`. -/
def sampleLocalMarshalled : Config :=
  [("template-name", CVal.str "t1"),
   ("template-description", CVal.str "d1"),
   ("req", CVal.dict [("organizationName", CVal.str "Acme")]),
   ("key-type", CVal.str "rsa")]

/-- A 201 create answer carrying a `location` header. -/
def postResp201 : HttpResponse :=
  HttpResponse.mk 201 "" [("location", "/manage/v2/certificate-templates/123")] []

/-- A 200 properties-fetch answer carrying `fetchedBody`. -/
def getResp200 : HttpResponse :=
  HttpResponse.mk 200 "fetched" [] fetchedBody

/-! ## Dictionary and marshalling lemmas -/

theorem lookupKey_isSome_iff {β : Type} (k : String) (l : List (String × β)) :
    (lookupKey k l).isSome ↔ k ∈ l.map Prod.fst := by
  induction l with
  | nil => simp [lookupKey]
  | cons kv rest ih =>
    obtain ⟨k', v⟩ := kv
    by_cases h : k' = k
    · subst h
      simp [lookupKey]
    · simp [lookupKey, beq_iff_eq, h, ih, Ne.symm h]

theorem lookupKey_eq_none_of_not_mem {β : Type} {k : String} {l : List (String × β)}
    (h : k ∉ l.map Prod.fst) : lookupKey k l = none := by
  have := (lookupKey_isSome_iff k l).not.mpr h
  cases hv : lookupKey k l with
  | none => rfl
  | some v => rw [hv] at this; simp at this

theorem lookupKey_eraseKey_ne {β : Type} {k k' : String} (hne : k ≠ k')
    (l : List (String × β)) : lookupKey k (eraseKey k' l) = lookupKey k l := by
  induction l with
  | nil => simp [eraseKey]
  | cons kv rest ih =>
    obtain ⟨k0, v⟩ := kv
    by_cases h0 : k0 = k'
    · subst h0
      simp [eraseKey, lookupKey, beq_iff_eq, hne, Ne.symm hne]
    · by_cases h1 : k0 = k
      · subst h1
        simp [eraseKey, lookupKey, beq_iff_eq, h0]
      · simp [eraseKey, lookupKey, beq_iff_eq, h0, h1, ih]

theorem eraseKey_keys_subset {β : Type} (k : String) (l : List (String × β)) :
    ∀ k', k' ∈ (eraseKey k l).map Prod.fst → k' ∈ l.map Prod.fst := by
  induction l with
  | nil => simp [eraseKey]
  | cons kv rest ih =>
    obtain ⟨k0, v⟩ := kv
    intro k' hk'
    by_cases h0 : k0 = k
    · subst h0
      simp [eraseKey] at hk'
      simp [hk']
    · simp only [eraseKey, beq_iff_eq, if_neg h0, List.map_cons, List.mem_cons] at hk'
      rcases hk' with h | h
      · simp [h]
      · exact List.mem_cons.mpr (Or.inr (ih k' h))

theorem lookupKey_eraseKey_self {β : Type} {k : String} {l : List (String × β)}
    (hnd : (l.map Prod.fst).Nodup) : lookupKey k (eraseKey k l) = none := by
  induction l with
  | nil => simp [eraseKey, lookupKey]
  | cons kv rest ih =>
    obtain ⟨k0, v⟩ := kv
    rw [List.map_cons, List.nodup_cons] at hnd
    by_cases h0 : k0 = k
    · subst h0
      simp [eraseKey]
      exact lookupKey_eq_none_of_not_mem hnd.1
    · simp [eraseKey, lookupKey, beq_iff_eq, h0, Ne.symm h0]
      exact ih hnd.2

theorem marshal_keys {l m : Config} (h : marshal l = Except.ok m) :
    m.map Prod.fst = l.map Prod.fst := by
  induction l generalizing m with
  | nil =>
    simp [marshal] at h
    subst h
    rfl
  | cons kv rest ih =>
    obtain ⟨k, v⟩ := kv
    by_cases hk : k = "req"
    · subst hk
      cases v <;> simp [marshal] at h
      cases hrest : marshal rest with
      | error e => rw [hrest] at h; simp at h
      | ok tail =>
        rw [hrest] at h
        simp at h
        subst h
        simp [ih hrest]
    · simp [marshal, beq_iff_eq, hk] at h
      cases hrest : marshal rest with
      | error e => rw [hrest] at h; simp at h
      | ok tail =>
        rw [hrest] at h
        simp at h
        subst h
        simp [ih hrest]

theorem unmarshal_entry_req (v : CVal) :
    unmarshal_entry ("req", v) = ("req", CVal.request v) := by
  simp [unmarshal_entry, Request_unmarshal]

theorem unmarshal_entry_ne {k : String} (h : k ≠ "req") (v : CVal) :
    unmarshal_entry (k, v) = (k, v) := by
  simp [unmarshal_entry, h]

theorem marshal_map_unmarshal_entry (m : Config) :
    marshal (m.map unmarshal_entry) = Except.ok m := by
  induction m with
  | nil => simp [marshal]
  | cons kv rest ih =>
    obtain ⟨k, v⟩ := kv
    by_cases hk : k = "req"
    · subst hk
      rw [List.map_cons, unmarshal_entry_req]
      simp [marshal, ih]
    · rw [List.map_cons, unmarshal_entry_ne hk]
      simp [marshal, beq_iff_eq, hk, ih]

theorem marshal_of_no_req {m : Config} (h : lookupKey "req" m = none) :
    marshal m = Except.ok m := by
  induction m with
  | nil => simp [marshal]
  | cons kv rest ih =>
    obtain ⟨k, v⟩ := kv
    by_cases hk : k = "req"
    · subst hk
      simp [lookupKey] at h
    · simp [lookupKey, beq_iff_eq, hk] at h
      simp [marshal, beq_iff_eq, hk, ih h]

theorem marshal_unmarshal (m : Config) :
    marshal (unmarshal m) = Except.ok m := by
  unfold unmarshal
  cases h : (lookupKey "req" m).isSome with
  | true => simp [marshal_map_unmarshal_entry]
  | false =>
    simp only [h, Bool.false_eq_true, if_false]
    exact marshal_of_no_req (Option.not_isSome_iff_eq_none.mp (by simp [h]))

theorem lookupKey_map_unmarshal_entry_ne {k : String} (hk : k ≠ "req")
    (l : Config) : lookupKey k (l.map unmarshal_entry) = lookupKey k l := by
  induction l with
  | nil => simp [lookupKey]
  | cons kv rest ih =>
    obtain ⟨k0, v⟩ := kv
    by_cases h0 : k0 = "req"
    · subst h0
      rw [List.map_cons, unmarshal_entry_req]
      simp [lookupKey, beq_iff_eq, hk, Ne.symm hk, ih]
    · rw [List.map_cons, unmarshal_entry_ne h0]
      by_cases h1 : k0 = k
      · subst h1
        simp [lookupKey]
      · simp [lookupKey, beq_iff_eq, h1, ih]

theorem lookupKey_unmarshal_ne {k : String} (hk : k ≠ "req") (l : Config) :
    lookupKey k (unmarshal l) = lookupKey k l := by
  unfold unmarshal
  cases h : (lookupKey "req" l).isSome with
  | true => simp [lookupKey_map_unmarshal_entry_ne hk]
  | false => simp

/-- Under unique keys, marshalling a configuration whose `req` entry is a
`Request` object succeeds, yields the request's `_config` under `req`, and
copies every other entry. -/
theorem marshal_props {l : Config} {c : CVal}
    (hnd : (l.map Prod.fst).Nodup)
    (hreq : lookupKey "req" l = some (CVal.request c)) :
    ∃ m, marshal l = Except.ok m ∧
      lookupKey "req" m = some c ∧
      (∀ k, k ≠ "req" → lookupKey k m = lookupKey k l) := by
  induction l with
  | nil => simp [lookupKey] at hreq
  | cons kv rest ih =>
    obtain ⟨k0, v⟩ := kv
    rw [List.map_cons, List.nodup_cons] at hnd
    by_cases h0 : k0 = "req"
    · subst h0
      simp [lookupKey] at hreq
      subst hreq
      have hrest : marshal rest = Except.ok rest :=
        marshal_of_no_req (lookupKey_eq_none_of_not_mem hnd.1)
      refine ⟨("req", c) :: rest, ?_, ?_, ?_⟩
      · simp [marshal, hrest]
      · simp [lookupKey]
      · intro k hk
        simp [lookupKey, beq_iff_eq, hk, Ne.symm hk]
    · simp [lookupKey, beq_iff_eq, h0] at hreq
      obtain ⟨m', hm', hreqm', hframe'⟩ := ih hnd.2 hreq
      refine ⟨(k0, v) :: m', ?_, ?_, ?_⟩
      · simp [marshal, beq_iff_eq, h0, hm']
      · simp [lookupKey, beq_iff_eq, h0, hreqm']
      · intro k hk
        by_cases h1 : k0 = k
        · subst h1
          simp [lookupKey]
        · simp [lookupKey, beq_iff_eq, h1, hframe' k hk]

/-! ## Normalization lemmas -/

theorem classify_unitsTokens (us : List ArgUnit) (h : ∀ u ∈ us, unitWF u) :
    classify false (unitsTokens us) =
      Normalized.mk ((us.map unitOptions).flatten) ((us.map unitParams).flatten)
        ((us.map unitPositional).flatten) := by
  induction us with
  | nil => simp [unitsTokens, classify]
  | cons u rest ih =>
    have hu : unitWF u := h u (List.mem_cons_self u rest)
    have hrest : ∀ u' ∈ rest, unitWF u' := fun u' hu' => h u' (List.mem_cons_of_mem u hu')
    have ihr := ih hrest
    cases u with
    | opt f a =>
      obtain ⟨h1, h2⟩ := hu
      have hb : (f != "--debug") = true := by simp [h2]
      simp [unitsTokens, unitTokens, unitOptions, unitParams, unitPositional,
        classify, h1, hb] at ihr ⊢
      simp [ihr]
    | debugOpt =>
      have h1 : py_startswith "--debug" "-" = true := by decide
      simp [unitsTokens, unitTokens, unitOptions, unitParams, unitPositional,
        classify, h1] at ihr ⊢
      simp [ihr]
    | param t =>
      obtain ⟨h1, h2⟩ := hu
      simp [unitsTokens, unitTokens, unitOptions, unitParams, unitPositional,
        classify, h1, h2] at ihr ⊢
      simp [ihr]
    | positional t =>
      obtain ⟨h1, h2⟩ := hu
      simp [unitsTokens, unitTokens, unitOptions, unitParams, unitPositional,
        classify, h1, h2] at ihr ⊢
      simp [ihr]

/-! ## Claim theorems -/

/-- Claim C2: the claim states that `Template.get_certificate` POSTs a
`get-certificate` operation payload and branches on the status (200 → parsed
body, 404 → `None`, else raise the generic error).  The code instead always
raises `NameError` at line 465 (`if ip-addr is not None:` — the undefined
names `ip` and `addr`) before any request is issued, whatever the optional
arguments are: this theorem evaluates the embedded code on every input and
shows no request is ever sent and the `NameError` is always raised. -/
theorem get_certificate_always_name_error (config : Config) (conn : Connection)
    (common_name : String) (dns_name ip_addr : Option String) :
    get_certificate config conn common_name dns_name ip_addr =
      OpResult.mk [] (Except.error (PyErr.nameError "ip")) config := by
  cases dns_name <;> rfl

/-- Claim C5: the claim states that `set_key_type(v)` returns normally for
every `v` equal to `'rsa'`.  The guard is `value is not 'rsa'` — object
identity, not string equality — so a string equal to `"rsa"` that is not the
interned literal object (e.g. `"".join(["r","s","a"])`) is rejected with the
custom validation error, while the literal itself is accepted and stored.
This theorem evaluates the embedded code at that failing input (first
conjunct) and at the literal (second conjunct). -/
theorem set_key_type_identity_check_divergence :
    set_key_type [] "rsa" false =
      Except.error (PyErr.validateCustom "The key-type must be 'rsa'") ∧
    set_key_type [] "rsa" true = Except.ok [("key-type", CVal.str "rsa")] := by
  exact ⟨rfl, rfl⟩

/-- Claim C6: the claim states that `Template(name, description,
cert_request, pass_phrase=p)` succeeds and `pass_phrase()` then returns `p`.
The constructor instead executes `optoins['pass-phrase'] = pass_phrase`
(line 60) — `optoins` is an undefined name — so every construction with a
non-`None` passphrase raises `NameError`, with or without a key length. -/
theorem template_init_pass_phrase_name_error (name description : String)
    (c : CVal) (kt : Option String) (key_length : Option CVal) (p : CVal) :
    Template_init name description (CVal.request c) kt key_length (some p) =
      Except.error (PyErr.nameError "optoins") := by
  cases kt <;> cases key_length <;> rfl

/-- Claim C8 (counterexample): the claim states that
`generate_template_certificate_authority` and
`generate_temporary_certificate` return the Template object on any of the
statuses 200, 201 and 204.  Evaluating the embedded code: on a 200 the
first operation raises the generic error (so its result is not `ok`), and
on a 204 the second does as well. -/
theorem generate_ops_success_claim_counterexample :
    (generate_template_certificate_authority sampleConfig sampleConn 90
      (HttpResponse.mk 200 "body200" [] [])).result =
        Except.error (PyErr.unexpectedResponse "body200") ∧
    (generate_template_certificate_authority sampleConfig sampleConn 90
      (HttpResponse.mk 200 "body200" [] [])).result ≠ Except.ok () ∧
    (generate_temporary_certificate sampleConfig sampleConn 90
      "example.com" "example.com" "10.0.0.1" true
      (HttpResponse.mk 204 "body204" [] [])).result =
        Except.error (PyErr.unexpectedResponse "body204") := by
  refine ⟨rfl, ?_, rfl⟩
  intro h
  simp [generate_template_certificate_authority, sampleConfig] at h

/-- Claim C8 (amended): both certificate-generation operations POST their
`operation` payload once and treat exactly the status 201 as success — they
return the Template object (result `ok`, configuration untouched) on 201 and
raise the generic `UnexpectedManagementAPIResponse` carrying the raw
response body on every other status, 200 and 204 included. -/
theorem generate_ops_only_201_succeeds (config : Config) (conn : Connection)
    (valid_for : Int) (common_name dns_name ip_addr : String)
    (if_necessary : Bool) (resp : HttpResponse) :
    (resp.status_code = 201 →
      (generate_template_certificate_authority config conn valid_for resp).result =
        Except.ok () ∧
      (generate_temporary_certificate config conn valid_for common_name
        dns_name ip_addr if_necessary resp).result = Except.ok ()) ∧
    (resp.status_code ≠ 201 →
      (generate_template_certificate_authority config conn valid_for resp).result =
        Except.error (PyErr.unexpectedResponse resp.text) ∧
      (generate_temporary_certificate config conn valid_for common_name
        dns_name ip_addr if_necessary resp).result =
        Except.error (PyErr.unexpectedResponse resp.text)) ∧
    (generate_template_certificate_authority config conn valid_for resp).config =
      config ∧
    (generate_temporary_certificate config conn valid_for common_name
      dns_name ip_addr if_necessary resp).config = config := by
  refine ⟨?_, ?_, ?_, ?_⟩
  · intro h
    constructor <;>
      simp [generate_template_certificate_authority,
        generate_temporary_certificate, h]
  · intro h
    constructor <;>
      simp [generate_template_certificate_authority,
        generate_temporary_certificate, beq_iff_eq, h]
  · simp [generate_template_certificate_authority]
    split <;> rfl
  · simp [generate_temporary_certificate]
    split <;> rfl

/-- Claim C8 (witness for the amended theorem): on 201 the authority
generation succeeds, on 500 it raises the error carrying the body. -/
theorem generate_ops_only_201_succeeds_witness :
    (generate_template_certificate_authority sampleConfig sampleConn 90
      (HttpResponse.mk 201 "" [] [])).result = Except.ok () ∧
    (generate_template_certificate_authority sampleConfig sampleConn 90
      (HttpResponse.mk 500 "boom" [] [])).result =
        Except.error (PyErr.unexpectedResponse "boom") :=
  ⟨((generate_ops_only_201_succeeds sampleConfig sampleConn 90 "cn" "dn" "ip"
      true (HttpResponse.mk 201 "" [] [])).1 rfl).1,
   ((generate_ops_only_201_succeeds sampleConfig sampleConn 90 "cn" "dn" "ip"
      true (HttpResponse.mk 500 "boom" [] [])).2.1 (by decide)).1⟩

/-- Claim C4: `Template.delete` issues one DELETE to the template's URI;
when the status is 200, 204 or 404 it completes without raising and removes
the local `template-id` entry (so `template_id()` afterwards returns
`None`); any other status raises the generic error carrying the response
body and leaves the configuration unchanged.  (The configuration is assumed
to hold a `template-id` entry — a saved template — and, as a Python dict,
to have no duplicate keys.) -/
theorem template_delete_spec (config : Config) (conn : Connection)
    (resp : HttpResponse)
    (hnd : (config.map Prod.fst).Nodup)
    (hid : (lookupKey "template-id" config).isSome = true) :
    (delete config conn resp).reqs =
      [HttpRequest.mk "DELETE"
        (templates_uri conn ++ "/" ++ format_template_id config) none] ∧
    (([200, 204].contains resp.status_code || resp.status_code == 404) = true →
      (delete config conn resp).result = Except.ok () ∧
      (delete config conn resp).config = eraseKey "template-id" config ∧
      template_id (delete config conn resp).config = none) ∧
    (([200, 204].contains resp.status_code || resp.status_code == 404) = false →
      (delete config conn resp).result =
        Except.error (PyErr.unexpectedResponse resp.text) ∧
      (delete config conn resp).config = config) := by
  refine ⟨?_, ?_, ?_⟩
  · simp only [delete]
    split
    · rfl
    · split <;> rfl
  · intro h
    simp only [delete, h]
    simp [hid, template_id, lookupKey_eraseKey_self hnd]
  · intro h
    simp only [delete, h]
    simp

/-- Claim C4 (witness): deleting the sample saved template with a 404
answer succeeds and clears the local id; with a 500 answer it raises the
generic error carrying the body. -/
theorem template_delete_spec_witness :
    ((delete sampleConfig sampleConn (HttpResponse.mk 404 "" [] [])).result =
        Except.ok () ∧
      (delete sampleConfig sampleConn (HttpResponse.mk 404 "" [] [])).config =
        eraseKey "template-id" sampleConfig ∧
      template_id (delete sampleConfig sampleConn
        (HttpResponse.mk 404 "" [] [])).config = none) ∧
    (delete sampleConfig sampleConn (HttpResponse.mk 500 "oops" [] [])).result =
      Except.error (PyErr.unexpectedResponse "oops") :=
  ⟨(template_delete_spec sampleConfig sampleConn (HttpResponse.mk 404 "" [] [])
      (by simp [sampleConfig]) (by rfl)).2.1 (by rfl),
   ((template_delete_spec sampleConfig sampleConn (HttpResponse.mk 500 "oops" [] [])
      (by simp [sampleConfig]) (by rfl)).2.2 (by rfl)).1⟩

theorem eraseKey_keys_sublist {β : Type} (k : String) (l : List (String × β)) :
    ((eraseKey k l).map Prod.fst).Sublist (l.map Prod.fst) := by
  induction l with
  | nil => simp [eraseKey]
  | cons kv rest ih =>
    obtain ⟨k0, v⟩ := kv
    by_cases h0 : k0 = k
    · subst h0
      simp [eraseKey]
    · simp [eraseKey, beq_iff_eq, h0]
      exact ih

/-- Claim C3: for a `Template` whose server-assigned fields are present
(as a Python dict, without duplicate keys), `Template.update` PUTs a payload
that is exactly the marshalled configuration minus `template-id` and
`template-version` — every other marshalled field is carried unchanged and
the two server-assigned keys are absent from it — the local configuration
(including `template-id` and `template-version`) is unchanged by the call,
and a status other than 200 or 204 raises the generic error carrying the
response body. -/
theorem template_update_spec (config m : Config) (conn : Connection)
    (resp : HttpResponse)
    (hnd : (config.map Prod.fst).Nodup)
    (hm : marshal config = Except.ok m)
    (hv : (lookupKey "template-version" config).isSome = true)
    (hi : (lookupKey "template-id" config).isSome = true) :
    (update config conn resp).reqs =
      [HttpRequest.mk "PUT"
        (templates_uri conn ++ "/" ++ format_template_id config ++ "/properties")
        (some (eraseKey "template-id" (eraseKey "template-version" m)))] ∧
    (∀ k, k ≠ "template-id" → k ≠ "template-version" →
      lookupKey k (eraseKey "template-id" (eraseKey "template-version" m)) =
        lookupKey k m) ∧
    lookupKey "template-id" (eraseKey "template-id" (eraseKey "template-version" m)) =
      none ∧
    lookupKey "template-version"
      (eraseKey "template-id" (eraseKey "template-version" m)) = none ∧
    (update config conn resp).config = config ∧
    template_id (update config conn resp).config = template_id config ∧
    template_version (update config conn resp).config = template_version config ∧
    (([200, 204].contains resp.status_code) = false →
      (update config conn resp).result =
        Except.error (PyErr.unexpectedResponse resp.text)) ∧
    (([200, 204].contains resp.status_code) = true →
      (update config conn resp).result = Except.ok ()) := by
  have hkeys := marshal_keys hm
  have hndm : (m.map Prod.fst).Nodup := by rw [hkeys]; exact hnd
  have hvm : (lookupKey "template-version" m).isSome = true := by
    have h1 : ("template-version" : String) ∈ config.map Prod.fst :=
      (lookupKey_isSome_iff _ _).mp hv
    exact (lookupKey_isSome_iff _ _).mpr (by rw [hkeys]; exact h1)
  have him : (lookupKey "template-id" m).isSome = true := by
    have h1 : ("template-id" : String) ∈ config.map Prod.fst :=
      (lookupKey_isSome_iff _ _).mp hi
    exact (lookupKey_isSome_iff _ _).mpr (by rw [hkeys]; exact h1)
  have hie : lookupKey "template-id" (eraseKey "template-version" m) =
      lookupKey "template-id" m :=
    lookupKey_eraseKey_ne (by decide) m
  have hnd1 : ((eraseKey "template-version" m).map Prod.fst).Nodup :=
    (eraseKey_keys_sublist _ _).nodup hndm
  refine ⟨?_, ?_, ?_, ?_, ?_, ?_, ?_, ?_, ?_⟩
  · simp only [update, hm, hvm, hie, him]
    simp only [Bool.true_eq_false, if_false]
    split <;> rfl
  · intro k hk1 hk2
    rw [lookupKey_eraseKey_ne hk1, lookupKey_eraseKey_ne hk2]
  · exact lookupKey_eraseKey_self hnd1
  · rw [lookupKey_eraseKey_ne (by decide)]
    exact lookupKey_eraseKey_self hndm
  · simp only [update, hm, hvm, hie, him]
    simp only [Bool.true_eq_false, if_false]
    split <;> rfl
  · simp only [update, hm, hvm, hie, him]
    simp only [Bool.true_eq_false, if_false]
    split <;> rfl
  · simp only [update, hm, hvm, hie, him]
    simp only [Bool.true_eq_false, if_false]
    split <;> rfl
  · intro h
    simp only [update, hm, hvm, hie, him, h]
    simp
  · intro h
    simp only [update, hm, hvm, hie, him, h]
    simp

/-- Claim C3 (witness): updating the sample saved template against a 500
answer sends the marshalled payload without the server-assigned keys, keeps
the local configuration intact, and raises the generic error. -/
theorem template_update_spec_witness :
    (update sampleConfig sampleConn (HttpResponse.mk 500 "bad" [] [])).config =
      sampleConfig ∧
    lookupKey "template-id"
      (eraseKey "template-id" (eraseKey "template-version"
        [("template-name", CVal.str "t1"),
         ("template-description", CVal.str "d1"),
         ("req", CVal.dict [("organizationName", CVal.str "Acme")]),
         ("key-type", CVal.str "rsa"),
         ("template-id", CVal.num 123),
         ("template-version", CVal.num 4)])) = none ∧
    (update sampleConfig sampleConn (HttpResponse.mk 500 "bad" [] [])).result =
      Except.error (PyErr.unexpectedResponse "bad") := by
  have h := template_update_spec sampleConfig
    [("template-name", CVal.str "t1"),
     ("template-description", CVal.str "d1"),
     ("req", CVal.dict [("organizationName", CVal.str "Acme")]),
     ("key-type", CVal.str "rsa"),
     ("template-id", CVal.num 123),
     ("template-version", CVal.num 4)]
    sampleConn (HttpResponse.mk 500 "bad" [] [])
    (by simp [sampleConfig]) (by rfl) (by rfl) (by rfl)
  exact ⟨h.2.2.2.2.1, h.2.2.1, h.2.2.2.2.2.2.2.1 (by rfl)⟩

/-- Claim C10: for a `Template` whose configuration lacks `template-id` or
`template-version` (e.g. constructed locally and never created or fetched),
`update` raises a `KeyError` from the `del payload[...]` statements before
any HTTP request is issued — not the custom validation error used elsewhere
for unsaved templates.  (`marshal` is assumed to succeed, as it does for any
locally constructed template.) -/
theorem template_update_unsaved_key_error (config m : Config)
    (conn : Connection) (resp : HttpResponse)
    (hm : marshal config = Except.ok m)
    (hmiss : lookupKey "template-id" config = none ∨
      lookupKey "template-version" config = none) :
    (update config conn resp).reqs = [] ∧
    ((update config conn resp).result =
        Except.error (PyErr.keyError "template-version") ∨
      (update config conn resp).result =
        Except.error (PyErr.keyError "template-id")) := by
  have hkeys := marshal_keys hm
  cases hv : (lookupKey "template-version" m).isSome with
  | false =>
    refine ⟨?_, Or.inl ?_⟩ <;> simp [update, hm, hv]
  | true =>
    have hvC : ("template-version" : String) ∈ config.map Prod.fst := by
      rw [← hkeys]
      exact (lookupKey_isSome_iff _ _).mp hv
    have hidC : lookupKey "template-id" config = none := by
      rcases hmiss with h | h
      · exact h
      · exfalso
        have h2 := (lookupKey_isSome_iff "template-version" config).mpr hvC
        rw [h] at h2
        simp at h2
    have hidm : lookupKey "template-id" (eraseKey "template-version" m) = none := by
      rw [lookupKey_eraseKey_ne (by decide)]
      apply lookupKey_eq_none_of_not_mem
      rw [hkeys]
      intro hmem
      have h2 := (lookupKey_isSome_iff "template-id" config).mpr hmem
      rw [hidC] at h2
      simp at h2
    refine ⟨?_, Or.inr ?_⟩ <;> simp [update, hm, hv, hidm]

/-- Claim C10 (witness): updating the sample local (unsaved) template
issues no request and raises a `KeyError`. -/
theorem template_update_unsaved_key_error_witness :
    (update sampleLocalConfig sampleConn (HttpResponse.mk 200 "" [] [])).reqs =
      [] ∧
    ((update sampleLocalConfig sampleConn (HttpResponse.mk 200 "" [] [])).result =
        Except.error (PyErr.keyError "template-version") ∨
      (update sampleLocalConfig sampleConn (HttpResponse.mk 200 "" [] [])).result =
        Except.error (PyErr.keyError "template-id")) :=
  template_update_unsaved_key_error sampleLocalConfig
    [("template-name", CVal.str "t1"),
     ("template-description", CVal.str "d1"),
     ("req", CVal.dict [("organizationName", CVal.str "Acme")]),
     ("key-type", CVal.str "rsa")]
    sampleConn (HttpResponse.mk 200 "" [] []) (by rfl) (Or.inl (by rfl))

/-- Claim C1: when the initial POST of `Template.create` is answered with a
success status (200, 201 or 204), `create` GETs the `/properties` URI
derived from the response's `location` header and — when that fetch answers
200 — replaces the local configuration with the unmarshaled server state,
so the server-assigned `template-id` and `template-version` of the fetched
body are what the accessors then return (a non-200 fetch raises and leaves
the configuration unchanged); when the POST status is not a success, the
generic error carrying the POST response body is raised and the local
configuration is unchanged. -/
theorem template_create_spec (config m : Config) (conn : Connection)
    (postResp getResp : HttpResponse) (loc : String)
    (hm : marshal config = Except.ok m)
    (hloc : lookupKey "location" postResp.headers = some loc) :
    (([200, 201, 204].contains postResp.status_code) = true →
      (create config conn postResp getResp).reqs =
        [HttpRequest.mk "POST" (templates_uri conn) (some m),
         HttpRequest.mk "GET"
           ("http://" ++ conn.host ++ ":" ++ conn.management_port ++ loc ++
             "/properties") none] ∧
      (getResp.status_code = 200 →
        (create config conn postResp getResp).result = Except.ok () ∧
        (create config conn postResp getResp).config = unmarshal getResp.jsonBody ∧
        template_id (create config conn postResp getResp).config =
          lookupKey "template-id" getResp.jsonBody ∧
        template_version (create config conn postResp getResp).config =
          lookupKey "template-version" getResp.jsonBody) ∧
      (getResp.status_code ≠ 200 →
        (create config conn postResp getResp).result =
          Except.error (PyErr.unexpectedResponse getResp.text) ∧
        (create config conn postResp getResp).config = config)) ∧
    (([200, 201, 204].contains postResp.status_code) = false →
      (create config conn postResp getResp).result =
        Except.error (PyErr.unexpectedResponse postResp.text) ∧
      (create config conn postResp getResp).config = config ∧
      (create config conn postResp getResp).reqs =
        [HttpRequest.mk "POST" (templates_uri conn) (some m)]) := by
  constructor
  · intro hpost
    refine ⟨?_, ?_, ?_⟩
    · simp only [create, hm, hpost, hloc]
      simp only [Bool.true_eq_false, if_false]
      split <;> rfl
    · intro h200
      have hb : (getResp.status_code == 200) = true := by simp [h200]
      have htid : lookupKey "template-id" (unmarshal getResp.jsonBody) =
          lookupKey "template-id" getResp.jsonBody :=
        lookupKey_unmarshal_ne (show ("template-id" : String) ≠ "req" by decide)
          getResp.jsonBody
      have htv : lookupKey "template-version" (unmarshal getResp.jsonBody) =
          lookupKey "template-version" getResp.jsonBody :=
        lookupKey_unmarshal_ne
          (show ("template-version" : String) ≠ "req" by decide) getResp.jsonBody
      simp only [create, hm, hpost, hloc, hb]
      refine ⟨by simp, by simp, ?_, ?_⟩
      · simp only [template_id]
        simpa using htid
      · simp only [template_version]
        simpa using htv
    · intro h200
      have hb : (getResp.status_code == 200) = false := by
        simp [beq_iff_eq, h200]
      simp only [create, hm, hpost, hloc, hb]
      simp
  · intro hpost
    simp only [create, hm, hpost]
    simp


/-- Claim C1 (witness): a 201 POST answer followed by a 200 properties
fetch replaces the local configuration with the unmarshaled fetched body,
whose `template-id` the accessor then reports; a 500 POST raises the error
carrying the body. -/
theorem template_create_spec_witness :
    ((create sampleLocalConfig sampleConn postResp201 getResp200).config =
        unmarshal fetchedBody ∧
      template_id (create sampleLocalConfig sampleConn postResp201
          getResp200).config = lookupKey "template-id" fetchedBody) ∧
    (create sampleLocalConfig sampleConn
        (HttpResponse.mk 500 "denied" [("location", "/x")] [])
        (HttpResponse.mk 200 "" [] [])).result =
      Except.error (PyErr.unexpectedResponse "denied") := by
  constructor
  · have h := ((template_create_spec sampleLocalConfig sampleLocalMarshalled
      sampleConn postResp201 getResp200
      "/manage/v2/certificate-templates/123" (by rfl) (by rfl)).1
      (by rfl)).2.1 (by rfl)
    exact ⟨h.2.1, h.2.2.1⟩
  · exact ((template_create_spec sampleLocalConfig sampleLocalMarshalled
      sampleConn (HttpResponse.mk 500 "denied" [("location", "/x")] [])
      (HttpResponse.mk 200 "" [] []) "/x" (by rfl) (by rfl)).2 (by rfl)).1

/-- Claim C9: marshal/unmarshal round-trip.  For a `Template` whose
configuration (a dict, without duplicate keys) holds a `Request` under the
`req` key, `marshal` succeeds, flattens exactly that entry to the request's
underlying dictionary and copies every other key unchanged; and
`Template.unmarshal` applied to the marshalled structure produces a
`Template` whose own `marshal()` yields the very same structure. -/
theorem template_marshal_unmarshal_round_trip (config : Config) (c : CVal)
    (hnd : (config.map Prod.fst).Nodup)
    (hreq : lookupKey "req" config = some (CVal.request c)) :
    ∃ m, marshal config = Except.ok m ∧
      lookupKey "req" m = some c ∧
      (∀ k, k ≠ "req" → lookupKey k m = lookupKey k config) ∧
      marshal (unmarshal m) = Except.ok m := by
  obtain ⟨m, hm, h1, h2⟩ := marshal_props hnd hreq
  exact ⟨m, hm, h1, h2, marshal_unmarshal m⟩

/-- Claim C9 (witness): the round trip at the sample saved template. -/
theorem template_marshal_unmarshal_round_trip_witness :
    ∃ m, marshal sampleConfig = Except.ok m ∧
      lookupKey "req" m =
        some (CVal.dict [("organizationName", CVal.str "Acme")]) ∧
      (∀ k, k ≠ "req" → lookupKey k m = lookupKey k sampleConfig) ∧
      marshal (unmarshal m) = Except.ok m :=
  template_marshal_unmarshal_round_trip sampleConfig
    (CVal.dict [("organizationName", CVal.str "Acme")])
    (by simp [sampleConfig]) (by rfl)

/-- Claim C7: `MMA.run` normalizes argv before parsing.  Stated over
decompositions of argv into syntactic units: (1) the normalization loop
sends each option flag — together with the following token as its argument,
except after `--debug` — to `options`, each remaining `=`-token to
`params`, and the rest to `positional`, in order within each category;
(2) everything `run` does afterwards (artifact hacks and the final
`options ++ positional ++ params` concatenation handed to the parser)
depends on argv only through the normalized triple, so dispatch is
independent of the original interleaving; (3) whenever dispatch reaches the
parser, the argv it receives is an options block, then a positional block,
then the params. -/
theorem mma_run_normalization (us : List ArgUnit) (h : ∀ u ∈ us, unitWF u) :
    mma_normalize (unitsTokens us) =
      Normalized.mk ((us.map unitOptions).flatten) ((us.map unitParams).flatten)
        ((us.map unitPositional).flatten) ∧
    (∀ argv argv' : List String, mma_normalize argv = mma_normalize argv' →
      run_parser_argv argv = run_parser_argv argv') ∧
    (∀ n : Normalized, ∀ out : List String, dispatch_argv n = Except.ok out →
      ∃ opts2 pos2, out = opts2 ++ pos2 ++ n.params) := by
  refine ⟨classify_unitsTokens us h, ?_, ?_⟩
  · intro a b hab
    simp [run_parser_argv, hab]
  · intro n out hout
    rcases n with ⟨opts, pars, pos⟩
    cases pos with
    | nil => simp [dispatch_argv] at hout
    | cons command rest =>
      cases rest with
      | nil =>
        simp only [dispatch_argv] at hout
        split at hout
        · split at hout
          · cases hout
            exact ⟨opts, _, rfl⟩
          · cases hout
            exact ⟨opts, _, rfl⟩
        · exact Except.noConfusion hout
      | cons artifact rest2 =>
        simp only [dispatch_argv] at hout
        split at hout
        · split at hout
          · exact Except.noConfusion hout
          · split at hout <;>
              (cases hout; exact ⟨opts ++ ["--type", artifact], _, rfl⟩)
        · cases hout
          exact ⟨opts, _, rfl⟩

/-- Claim C7 (witness): a concrete argv interleaving flags, positionals and
a `key=value` parameter is normalized into the three blocks. -/
theorem mma_run_normalization_witness :
    mma_normalize
        ["--credentials", "admin:admin", "create", "forest", "host=h1",
         "--debug"] =
      Normalized.mk ["--credentials", "admin:admin", "--debug"] ["host=h1"]
        ["create", "forest"] := by
  have h := (mma_run_normalization
    [ArgUnit.opt "--credentials" "admin:admin", ArgUnit.positional "create",
     ArgUnit.positional "forest", ArgUnit.param "host=h1", ArgUnit.debugOpt]
    (by decide)).1
  simpa [unitsTokens, unitTokens, unitOptions, unitParams, unitPositional]
    using h
